import Mathlib

/-!
Shallow embedding of the A2A streaming core
(`src/examples/a2a_utils.py` and `src/examples/agent_executor.py`).

Modelling conventions:
* A Python dict is an insertion-ordered association list `List (String × Value)`;
  `d[k] = v` is `setItem`, `d.get(k)` / key presence is `List.lookup`.
* Event values are JSON-like: strings, lists and nested dicts (`Value`).
* `asyncio.Queue` is a `List Item` (head = front); `put` appends at the tail,
  `get` removes the head.  The `None` end signal enqueued by `complete`/`fail`
  is the `Option.none` item; event dicts are `some d`.
* Each `async` method is a pure state-passing function: it receives the
  updater record and the current queue contents and returns the new ones.
  `datetime.utcnow().isoformat()` is nondeterministic input, so every
  operation takes the timestamp string as an explicit argument.
-/

inductive Value where
  | str : String → Value
  | vlist : List Value → Value
  | vdict : List (String × Value) → Value

abbrev Dict := List (String × Value)

/-- An item of the shared queue: an event dict, or the `None` end signal. -/
abbrev Item := Option Dict

abbrev Channel := List Item

/-- Python `d[k] = v`: replace the value when the key is present, otherwise
append the pair at the end (insertion order). -/
def setItem (d : Dict) (k : String) (v : Value) : Dict :=
  if (d.lookup k).isSome then
    d.map (fun p => if p.1 = k then (k, v) else p)
  else
    d ++ [(k, v)]

/-- `TaskState` enum of `a2a_utils.py`. -/
inductive TaskState where
  | pending
  | working
  | completed
  | failed
  | cancelled
deriving DecidableEq

/-- The `.value` string of each `TaskState` member. -/
def TaskState.value : TaskState → String
  | TaskState.pending => "pending"
  | TaskState.working => "working"
  | TaskState.completed => "completed"
  | TaskState.failed => "failed"
  | TaskState.cancelled => "cancelled"

/-- `EventQueue.enqueue`: `await self.queue.put(event)` on an unbounded
`asyncio.Queue` — always succeeds and appends at the tail. -/
def EventQueue.enqueue (q : Channel) (event : Item) : Channel :=
  q ++ [event]

/-- `EventQueue.get`: `await self.queue.get()` — returns the head and the
rest; an empty queue would suspend the caller, modelled as `Option.none`. -/
def EventQueue.get : Channel → Option (Item × Channel)
  | [] => Option.none
  | e :: rest => some (e, rest)

/-- `EventQueue.is_empty`: `self.queue.empty()`. -/
def EventQueue.is_empty (q : Channel) : Bool :=
  q.isEmpty

/-- State of a `TaskUpdater` (the `EventQueue` reference is threaded
separately as the `Channel` argument of each operation). -/
structure TaskUpdater where
  task_id : String
  context_id : String
  current_state : TaskState

/-- `TaskUpdater.__init__`: identity fields as given, state `PENDING`. -/
def TaskUpdater.init (task_id context_id : String) : TaskUpdater :=
  ⟨task_id, context_id, TaskState.pending⟩

/-- The `status_event` dict literal built by `TaskUpdater.update_status`
(lines 76–82 of `a2a_utils.py`). -/
def status_event (task_id context_id : String) (state : TaskState) (ts : String) : Dict :=
  [("type", Value.str "statusUpdate"),
   ("task_id", Value.str task_id),
   ("context_id", Value.str context_id),
   ("state", Value.str (TaskState.value state)),
   ("timestamp", Value.str ts)]

/-- `TaskUpdater.update_status`: set `current_state`, enqueue the status
event (no `parts` key). -/
def TaskUpdater.update_status (u : TaskUpdater) (q : Channel) (state : TaskState)
    (ts : String) : TaskUpdater × Channel :=
  let u' : TaskUpdater := ⟨u.task_id, u.context_id, state⟩
  (u', EventQueue.enqueue q (some (status_event u'.task_id u'.context_id state ts)))

/-- The `artifact_event` dict literal built by
`TaskUpdater.add_artifact_update` (`metadata or {}` is `Option.getD`). -/
def artifact_event (task_id context_id artifact_id content : String)
    (metadata : Option Dict) (ts : String) : Dict :=
  [("type", Value.str "artifactUpdate"),
   ("task_id", Value.str task_id),
   ("context_id", Value.str context_id),
   ("artifact_id", Value.str artifact_id),
   ("content", Value.str content),
   ("metadata", Value.vdict (metadata.getD [])),
   ("timestamp", Value.str ts)]

/-- `TaskUpdater.add_artifact_update`: enqueue the artifact event; the
updater's own fields are untouched. -/
def TaskUpdater.add_artifact_update (u : TaskUpdater) (q : Channel)
    (artifact_id content : String) (metadata : Option Dict) (ts : String) :
    TaskUpdater × Channel :=
  (u, EventQueue.enqueue q (some (artifact_event u.task_id u.context_id
        artifact_id content metadata ts)))

/-- `new_agent_parts_message` (lines 167–172 of `a2a_utils.py`): the
`agent_parts` message dict with the given parts and role. -/
def new_agent_parts_message (parts : List Value) (role : String) (ts : String) : Dict :=
  [("type", Value.str "agent_parts"),
   ("role", Value.str role),
   ("parts", Value.vlist parts),
   ("timestamp", Value.str ts)]

/-- `TaskUpdater.complete`: `update_status(COMPLETED)` then enqueue the
`None` end signal. -/
def TaskUpdater.complete (u : TaskUpdater) (q : Channel) (ts : String) :
    TaskUpdater × Channel :=
  let r := TaskUpdater.update_status u q TaskState.completed ts
  (r.1, EventQueue.enqueue r.2 Option.none)

/-- The `error_msg` dict built inside `TaskUpdater.fail`:
`new_agent_parts_message` with the `❌ Error:` text part, role `system`,
then `task_id` and `context_id` assigned by item assignment. -/
def error_msg (task_id context_id message ts : String) : Dict :=
  setItem
    (setItem
      (new_agent_parts_message
        [Value.vdict [("type", Value.str "text"),
                      ("content", Value.str ("❌ Error: " ++ message))]]
        "system" ts)
      "task_id" (Value.str task_id))
    "context_id" (Value.str context_id)

/-- `TaskUpdater.fail`: `update_status(FAILED)`, then — only when
`error_message` is truthy (`if error_message:`, so neither `None` nor the
empty string) — the synthesized error message, then the `None` end signal. -/
def TaskUpdater.fail (u : TaskUpdater) (q : Channel) (error_message : Option String)
    (ts : String) : TaskUpdater × Channel :=
  let r := TaskUpdater.update_status u q TaskState.failed ts
  let q2 :=
    match error_message with
    | some msg =>
        if msg != "" then
          EventQueue.enqueue r.2 (some (error_msg r.1.task_id r.1.context_id msg ts))
        else r.2
    | Option.none => r.2
  (r.1, EventQueue.enqueue q2 Option.none)

/-!
Embedding of `src/examples/agent_executor.py`.

The `try:` block of `AgentExecutor.execute` may raise at any point; side
effects performed before the raise (queue items already enqueued, the
updater's mutated state) persist.  The block is therefore modelled as a
function producing an `ExecOutcome`: normal completion with the final
updater, agent state and queue, or a raised exception carrying its message
together with the updater and queue as they stood at the raise point.  The
concrete block of the source (status update, the two nodes, `complete`) is
`executeBody`, which always returns `ExecOutcome.ok`.
-/

/-- `AgentState` of `agent_executor.py`; `messages` entries are the
role/content dicts the source appends. -/
structure AgentState where
  messages : List Dict
  current_step : String
  task_id : String
  context_id : String

/-- Outcome of running the `try:` block of `AgentExecutor.execute`. -/
inductive ExecOutcome where
  | ok : TaskUpdater → AgentState → Channel → ExecOutcome
  | raised : String → TaskUpdater → Channel → ExecOutcome

/-- Python `str.split()`: split on spaces, dropping empty pieces. -/
def pySplit (s : String) : List String :=
  (s.splitOn " ").filter (fun w => w != "")

/-- One word-chunk `agent_parts` message of the streaming loops in
`research_node` / `summary_node`, with the task identity assigned. -/
def word_chunk (task_id context_id word ts : String) : Dict :=
  setItem
    (setItem
      (new_agent_parts_message
        [Value.vdict [("type", Value.str "text"), ("content", Value.str (word ++ " "))]]
        "assistant" ts)
      "task_id" (Value.str task_id))
    "context_id" (Value.str context_id)

/-- A `system`-role `agent_parts` message with one text part and the task
identity assigned, as built at the top of each node. -/
def node_banner (task_id context_id text ts : String) : Dict :=
  setItem
    (setItem
      (new_agent_parts_message
        [Value.vdict [("type", Value.str "text"), ("content", Value.str text)]]
        "system" ts)
      "task_id" (Value.str task_id))
    "context_id" (Value.str context_id)

/-- `research_node`: status `WORKING`, a banner message, one chunk per word
of `"Research complete"`, and the result appended to `messages`. -/
def research_node (state : AgentState) (u : TaskUpdater) (q : Channel) (ts : String) :
    AgentState × TaskUpdater × Channel :=
  let r := TaskUpdater.update_status u q TaskState.working ts
  let q2 := EventQueue.enqueue r.2
    (some (node_banner state.task_id state.context_id "🔍 Researching..." ts))
  let result := "Research complete"
  let q3 := (pySplit result).foldl
    (fun qq word => EventQueue.enqueue qq
      (some (word_chunk state.task_id state.context_id word ts))) q2
  let state' : AgentState :=
    ⟨state.messages ++ [[("role", Value.str "assistant"), ("content", Value.str result)]],
     state.current_step, state.task_id, state.context_id⟩
  (state', r.1, q3)

/-- `summary_node`: status `WORKING`, a banner message, one chunk per word
of `"Final summary complete"`, an artifact update, and the summary appended
to `messages`. -/
def summary_node (state : AgentState) (u : TaskUpdater) (q : Channel) (ts : String) :
    AgentState × TaskUpdater × Channel :=
  let r := TaskUpdater.update_status u q TaskState.working ts
  let q2 := EventQueue.enqueue r.2
    (some (node_banner state.task_id state.context_id "📝 Creating summary..." ts))
  let summary := "Final summary complete"
  let q3 := (pySplit summary).foldl
    (fun qq word => EventQueue.enqueue qq
      (some (word_chunk state.task_id state.context_id word ts))) q2
  let r2 := TaskUpdater.add_artifact_update r.1 q3 "summary" summary
    (some [("type", Value.str "summary")]) ts
  let state' : AgentState :=
    ⟨state.messages ++ [[("role", Value.str "assistant"), ("content", Value.str summary)]],
     state.current_step, state.task_id, state.context_id⟩
  (state', r2.1, r2.2)

/-- The concrete `try:` block of `AgentExecutor.execute`: initial
`update_status(WORKING)`, initial state from the query, the two nodes,
then `complete`.  It raises nothing, so it always returns `ok`. -/
def executeBody (query : String) (u : TaskUpdater) (q : Channel) (ts : String) :
    ExecOutcome :=
  let r := TaskUpdater.update_status u q TaskState.working ts
  let initial_state : AgentState :=
    ⟨[[("role", Value.str "user"), ("content", Value.str query)]],
     "start", u.task_id, u.context_id⟩
  let a := research_node initial_state r.1 r.2 ts
  let b := summary_node a.1 a.2.1 a.2.2 ts
  let c := TaskUpdater.complete b.2.1 b.2.2 ts
  ExecOutcome.ok c.1 b.1 c.2

/-- `AgentExecutor.execute`: run the `try:` block; on a raised exception,
call `self.updater.fail(str(e))` and re-raise (`Except.error e`). -/
def AgentExecutor.execute (body : TaskUpdater → Channel → ExecOutcome)
    (u : TaskUpdater) (q : Channel) (ts : String) :
    Except String AgentState × TaskUpdater × Channel :=
  match body u q with
  | ExecOutcome.ok u' st q' => (Except.ok st, u', q')
  | ExecOutcome.raised e u' q' =>
      let r := TaskUpdater.fail u' q' (some e) ts
      (Except.error e, r.1, r.2)

/-- Consumer drain loop: call `EventQueue.get` until the queue would
suspend, collecting the returned items in order. -/
def drainAll (q : Channel) : List Item :=
  match hq : EventQueue.get q with
  | Option.none => []
  | some p => p.1 :: drainAll p.2
termination_by q.length
decreasing_by
  cases q with
  | nil => simp [EventQueue.get] at hq
  | cons e rest =>
      simp only [EventQueue.get, Option.some.injEq] at hq
      subst hq
      simp

/-- Modelled from the spec (§4.2): `complete(…)` "equivalent to
`update_status(Completed, final content)` followed by enqueuing
`EndOfStream`" — the spec-side composition compared against
`TaskUpdater.complete` in the refinement claim. -/
def complete_spec (u : TaskUpdater) (q : Channel) (ts : String) :
    TaskUpdater × Channel :=
  let r := TaskUpdater.update_status u q TaskState.completed ts
  (r.1, EventQueue.enqueue r.2 Option.none)

/-! Helper lemmas. -/

theorem foldl_enqueue (es : List Item) :
    ∀ l, List.foldl EventQueue.enqueue l es = l ++ es := by
  induction es with
  | nil => intro l; simp
  | cons e rest ih => intro l; simp [EventQueue.enqueue, ih]

theorem drainAll_eq (q : Channel) : drainAll q = q := by
  induction q with
  | nil =>
      rw [drainAll]
      split
      · rfl
      · rename_i p heq
        simp [EventQueue.get] at heq
  | cons e rest ih => rw [drainAll]; simp [EventQueue.get, ih]

/-! Claim theorems. -/

/-- Claim C1 (amended): every status event produced by
`TaskUpdater.update_status` lacks a `parts` key, and every message produced
by `new_agent_parts_message` has a `parts` key holding exactly the given
parts list — hence non-empty exactly when that argument is non-empty. -/
theorem status_events_lack_parts_content_events_carry_parts :
    (∀ tid cid s ts, List.lookup "parts" (status_event tid cid s ts) = Option.none) ∧
    (∀ ps role ts, List.lookup "parts" (new_agent_parts_message ps role ts)
        = some (Value.vlist ps)) := by
  constructor
  · intro tid cid s ts; rfl
  · intro ps role ts; rfl

/-- Claim C1 counterexample: `new_agent_parts_message` accepts the empty
parts list and then produces a ContentEvent whose `parts` field is empty,
refuting "non-empty for every accepted parts argument". -/
theorem new_agent_parts_message_empty_parts :
    ¬ ∃ vs, List.lookup "parts" (new_agent_parts_message [] "assistant" "t0")
        = some (Value.vlist vs) ∧ vs ≠ [] := by
  rintro ⟨vs, hv, hne⟩
  have hv' : some (Value.vlist ([] : List Value)) = some (Value.vlist vs) := hv
  injection hv' with h
  injection h with h2
  exact hne h2.symm

/-- Claim C2 (Scenario A): on a fresh controller for `t1`/`c1`, the calls
`update_status(Working)`, enqueue of one assistant `agent_parts` message,
then `complete()` leave the channel holding exactly the Working status
event, that message, the Completed status event, and the end signal, in
this order. -/
theorem scenarioA_channel (ts1 ts2 ts3 : String) :
    (TaskUpdater.complete
        (TaskUpdater.update_status (TaskUpdater.init "t1" "c1") [] TaskState.working ts1).1
        (EventQueue.enqueue
          (TaskUpdater.update_status (TaskUpdater.init "t1" "c1") [] TaskState.working ts1).2
          (some (new_agent_parts_message [Value.vdict [("text", Value.str "hi")]]
            "assistant" ts2)))
        ts3).2
      = [some (status_event "t1" "c1" TaskState.working ts1),
         some (new_agent_parts_message [Value.vdict [("text", Value.str "hi")]] "assistant" ts2),
         some (status_event "t1" "c1" TaskState.completed ts3),
         Option.none] := rfl

/-- Claim C3 (code behavior at the failing input): after `complete()` has
enqueued the end signal, `update_status(Working)` raises no error at all —
it returns normally and appends a further status event behind the
sentinel, contradicting the required `InvalidTransition` rejection. -/
theorem update_status_after_complete_succeeds :
    ((TaskUpdater.init "t1" "c1").complete [] "ts1").2.getLast? = some Option.none ∧
    (TaskUpdater.update_status ((TaskUpdater.init "t1" "c1").complete [] "ts1").1
        ((TaskUpdater.init "t1" "c1").complete [] "ts1").2 TaskState.working "ts2").2
      = [some (status_event "t1" "c1" TaskState.completed "ts1"), Option.none,
         some (status_event "t1" "c1" TaskState.working "ts2")] :=
  ⟨rfl, rfl⟩

/-- Claim C4: if the `try:` block of `AgentExecutor.execute` raises with
message `e`, the executor catches it, routes it to `fail(e)`, and re-raises
`e` to its caller, with the Failed status event, the optional error
message, and the end signal already enqueued — the channel always reaches
the sentinel even on failure. -/
theorem execute_failure_terminates_stream
    (body : TaskUpdater → Channel → ExecOutcome) (u u' : TaskUpdater)
    (q q' : Channel) (e ts : String)
    (h : body u q = ExecOutcome.raised e u' q') :
    (AgentExecutor.execute body u q ts).1 = Except.error e ∧
    (AgentExecutor.execute body u q ts).2.2
      = q' ++ [some (status_event u'.task_id u'.context_id TaskState.failed ts)]
          ++ (if e != "" then [some (error_msg u'.task_id u'.context_id e ts)] else [])
          ++ [Option.none] ∧
    (AgentExecutor.execute body u q ts).2.2.getLast? = some Option.none := by
  have h1 : (AgentExecutor.execute body u q ts).1 = Except.error e := by
    simp [AgentExecutor.execute, h]
  have h2 : (AgentExecutor.execute body u q ts).2.2
      = q' ++ [some (status_event u'.task_id u'.context_id TaskState.failed ts)]
          ++ (if e != "" then [some (error_msg u'.task_id u'.context_id e ts)] else [])
          ++ [Option.none] := by
    cases he : (e != "") <;>
      simp [AgentExecutor.execute, h, TaskUpdater.fail, TaskUpdater.update_status,
        EventQueue.enqueue, he]
  refine ⟨h1, h2, ?_⟩
  rw [h2]
  rw [List.getLast?_concat]

/-- Witness for C4: a body raising `"boom"` from the fresh controller. -/
theorem execute_failure_terminates_stream_witness :
    (AgentExecutor.execute (fun u q => ExecOutcome.raised "boom" u q)
        (TaskUpdater.init "t1" "c1") [] "ts").1 = Except.error "boom" ∧
    (AgentExecutor.execute (fun u q => ExecOutcome.raised "boom" u q)
        (TaskUpdater.init "t1" "c1") [] "ts").2.2
      = [] ++ [some (status_event "t1" "c1" TaskState.failed "ts")]
          ++ (if "boom" != "" then [some (error_msg "t1" "c1" "boom" "ts")] else [])
          ++ [Option.none] ∧
    (AgentExecutor.execute (fun u q => ExecOutcome.raised "boom" u q)
        (TaskUpdater.init "t1" "c1") [] "ts").2.2.getLast? = some Option.none :=
  execute_failure_terminates_stream (fun u q => ExecOutcome.raised "boom" u q)
    (TaskUpdater.init "t1" "c1") (TaskUpdater.init "t1" "c1") [] [] "boom" "ts" rfl

/-- Claim C5 counterexample: calling `fail` with the supplied (but empty)
error message `""` enqueues no error ContentEvent at all — the channel
holds only the Failed status event and the end signal. -/
theorem fail_empty_message_no_content_event :
    ¬ ∃ d, some d ∈ (TaskUpdater.fail (TaskUpdater.init "t1" "c1") [] (some "") "t0").2 ∧
        List.lookup "type" d = some (Value.str "agent_parts") := by
  rintro ⟨d, hd, ht⟩
  have hq : (TaskUpdater.fail (TaskUpdater.init "t1" "c1") [] (some "") "t0").2
      = [some (status_event "t1" "c1" TaskState.failed "t0"), Option.none] := rfl
  rw [hq] at hd
  simp only [List.mem_cons, List.not_mem_nil, or_false] at hd
  rcases hd with hd | hd
  · rcases Option.some.inj hd with rfl
    have ht' : some (Value.str "statusUpdate") = some (Value.str "agent_parts") := ht
    injection ht' with h
    injection h with h2
    exact absurd h2 (by decide)
  · exact Option.noConfusion hd

/-- Claim C5 (amended): `fail` enqueues the Failed status event, then —
when a non-empty error message is supplied — one synthesized error
ContentEvent carrying it, then the end signal; with no message, or with
the empty message, only the Failed status event and the end signal. -/
theorem fail_event_sequences (u : TaskUpdater) (q : Channel) (m ts : String)
    (hm : m ≠ "") :
    (TaskUpdater.fail u q (some m) ts).2
      = q ++ [some (status_event u.task_id u.context_id TaskState.failed ts),
              some (error_msg u.task_id u.context_id m ts), Option.none] ∧
    (TaskUpdater.fail u q Option.none ts).2
      = q ++ [some (status_event u.task_id u.context_id TaskState.failed ts), Option.none] ∧
    (TaskUpdater.fail u q (some "") ts).2
      = q ++ [some (status_event u.task_id u.context_id TaskState.failed ts), Option.none] := by
  refine ⟨?_, ?_, ?_⟩
  · simp [TaskUpdater.fail, TaskUpdater.update_status, EventQueue.enqueue, hm]
  · simp [TaskUpdater.fail, TaskUpdater.update_status, EventQueue.enqueue]
  · simp [TaskUpdater.fail, TaskUpdater.update_status, EventQueue.enqueue]

/-- Witness for C5 with the non-empty message `"x"`. -/
theorem fail_event_sequences_witness :
    (TaskUpdater.fail (TaskUpdater.init "t1" "c1") [] (some "x") "ts").2
      = [] ++ [some (status_event "t1" "c1" TaskState.failed "ts"),
               some (error_msg "t1" "c1" "x" "ts"), Option.none] :=
  (fail_event_sequences (TaskUpdater.init "t1" "c1") [] "x" "ts" (by decide)).1

/-- Claim C6: `TaskUpdater.complete` is exactly `update_status(Completed)`
followed by enqueuing the end signal (`complete_spec`, written from the
spec's words): same channel contents and same controller state. -/
theorem complete_eq_update_status_then_end (u : TaskUpdater) (q : Channel) (ts : String) :
    TaskUpdater.complete u q ts = complete_spec u q ts := rfl

/-- Claim C7: the event queue is an unbounded FIFO — `enqueue` always
succeeds and appends at the tail, `get` returns the head, and draining a
queue built by enqueueing any event sequence yields exactly that sequence
in order, with nothing reordered, dropped or coalesced. -/
theorem event_channel_unbounded_fifo :
    (∀ q e, EventQueue.enqueue q e = q ++ [e]) ∧
    (∀ e rest, EventQueue.get (e :: rest) = some (e, rest)) ∧
    (∀ es : List Item, drainAll (List.foldl EventQueue.enqueue [] es) = es) := by
  refine ⟨fun q e => rfl, fun e rest => rfl, fun es => ?_⟩
  rw [foldl_enqueue]
  simpa using drainAll_eq es

/-- Claim C8 (code behavior at the failing input): after `complete()` has
enqueued the end signal, a further `enqueue` silently succeeds — the event
is appended behind the sentinel and no error is reported, contradicting
the required explicit failure. -/
theorem enqueue_after_end_signal_succeeds :
    ((TaskUpdater.init "t1" "c1").complete [] "ts").2.getLast? = some Option.none ∧
    EventQueue.enqueue ((TaskUpdater.init "t1" "c1").complete [] "ts").2
        (some (new_agent_parts_message [Value.vdict [("text", Value.str "late")]]
          "assistant" "ts2"))
      = [some (status_event "t1" "c1" TaskState.completed "ts"), Option.none,
         some (new_agent_parts_message [Value.vdict [("text", Value.str "late")]]
           "assistant" "ts2")] :=
  ⟨rfl, rfl⟩

/-- Claim C9: every `TaskUpdater` operation leaves `task_id` and
`context_id` unchanged, and every event dict it enqueues carries exactly
those identity values (the end signal is the payload-free sentinel). -/
theorem task_identity_immutable (u : TaskUpdater) (q : Channel) (s : TaskState)
    (artifact_id content : String) (metadata : Option Dict)
    (em : Option String) (m ts : String) :
    ((TaskUpdater.update_status u q s ts).1.task_id = u.task_id ∧
     (TaskUpdater.update_status u q s ts).1.context_id = u.context_id ∧
     (TaskUpdater.update_status u q s ts).2
       = q ++ [some (status_event u.task_id u.context_id s ts)]) ∧
    ((TaskUpdater.add_artifact_update u q artifact_id content metadata ts).1 = u ∧
     (TaskUpdater.add_artifact_update u q artifact_id content metadata ts).2
       = q ++ [some (artifact_event u.task_id u.context_id artifact_id content metadata ts)]) ∧
    ((TaskUpdater.complete u q ts).1.task_id = u.task_id ∧
     (TaskUpdater.complete u q ts).1.context_id = u.context_id ∧
     (TaskUpdater.complete u q ts).2
       = q ++ [some (status_event u.task_id u.context_id TaskState.completed ts),
               Option.none]) ∧
    ((TaskUpdater.fail u q em ts).1.task_id = u.task_id ∧
     (TaskUpdater.fail u q em ts).1.context_id = u.context_id ∧
     (TaskUpdater.fail u q em ts).2
       = q ++ [some (status_event u.task_id u.context_id TaskState.failed ts)]
           ++ (match em with
               | some mm => if mm != ""
                   then [some (error_msg u.task_id u.context_id mm ts)] else []
               | Option.none => [])
           ++ [Option.none]) ∧
    (List.lookup "task_id" (status_event u.task_id u.context_id s ts)
       = some (Value.str u.task_id) ∧
     List.lookup "context_id" (status_event u.task_id u.context_id s ts)
       = some (Value.str u.context_id) ∧
     List.lookup "task_id" (artifact_event u.task_id u.context_id artifact_id
        content metadata ts) = some (Value.str u.task_id) ∧
     List.lookup "context_id" (artifact_event u.task_id u.context_id artifact_id
        content metadata ts) = some (Value.str u.context_id) ∧
     List.lookup "task_id" (error_msg u.task_id u.context_id m ts)
       = some (Value.str u.task_id) ∧
     List.lookup "context_id" (error_msg u.task_id u.context_id m ts)
       = some (Value.str u.context_id)) := by
  refine ⟨⟨rfl, rfl, ?_⟩, ⟨rfl, ?_⟩, ⟨rfl, rfl, ?_⟩, ⟨rfl, rfl, ?_⟩,
    rfl, rfl, rfl, rfl, rfl, rfl⟩
  · rfl
  · rfl
  · simp [TaskUpdater.complete, TaskUpdater.update_status, EventQueue.enqueue]
  · cases em with
    | none => simp [TaskUpdater.fail, TaskUpdater.update_status, EventQueue.enqueue]
    | some mm =>
        cases hmm : (mm != "") <;>
          simp [TaskUpdater.fail, TaskUpdater.update_status, EventQueue.enqueue, hmm]

/-- Claim C10: `fail` with the empty string behaves exactly like `fail`
with no message — the presence check is truthiness — and the channel gets
only the Failed status event and the end signal. -/
theorem fail_empty_string_eq_fail_none (u : TaskUpdater) (q : Channel) (ts : String) :
    TaskUpdater.fail u q (some "") ts = TaskUpdater.fail u q Option.none ts ∧
    (TaskUpdater.fail u q (some "") ts).2
      = q ++ [some (status_event u.task_id u.context_id TaskState.failed ts),
              Option.none] := by
  constructor
  · rfl
  · simp [TaskUpdater.fail, TaskUpdater.update_status, EventQueue.enqueue]
